import Mathlib

/-!
Shallow embedding of the obstacle-depth pipeline of `src/obstacle_depth.py`
(devangguptaa/navi-rpi): depth preprocessing, per-box distance estimation
(5th percentile + margin cluster + median), alert classification, and the
startup control flow of `main`.  Depth and confidence samples are modelled
as rationals; buffers as functions from pixel coordinates to values.
-/

attribute [local semireducible] Rat.mul Rat.inv Rat.add Rat.sub Rat.ofScientific

namespace ObstacleDepth

/-- Constant `CONF_THR = 30`, the confidence threshold (source lines 150 and 184). -/
def CONF_THR : ℚ := 30

/-- Constant `MARGIN_MM = 250`, the cluster margin around the nearest depth (line 185). -/
def MARGIN_MM : ℚ := 250

/-- Constant `MAX_DISTANCE = 4000`, the configured device range (line 8). -/
def MAX_DISTANCE : ℚ := 4000

/-- The safety tiers of the alert classifier (spec table; source lines 231-246). -/
inductive AlertTier where
  | none
  | personWarning
  | obstacleWarning
  | criticalStop
deriving DecidableEq

/-- One classification outcome: a tier together with the spoken message, if any. -/
structure Alert where
  tier : AlertTier
  message : Option String
deriving DecidableEq

/-- The Python 3 `TypeError` raised by comparing `None` with an int. -/
def noneCmpError : String := "TypeError: < not supported between instances of NoneType and int"

/-- Python semantics of `dist_cm < b` where `dist_cm : Option`: comparing
`None` with a number raises `TypeError`. -/
def pyLt (a : Option ℚ) (b : ℚ) : Except String Bool :=
  match a with
  | Option.none => Except.error noneCmpError
  | Option.some x => Except.ok (decide (x < b))

/-- Python semantics of `dist_cm >= b` where `dist_cm : Option`. -/
def pyGe (a : Option ℚ) (b : ℚ) : Except String Bool :=
  match a with
  | Option.none => Except.error noneCmpError
  | Option.some x => Except.ok (decide (b ≤ x))

/-- Python round-half-to-even, used by the `:.0f` format specifier. -/
def fmt0 (q : ℚ) : ℤ :=
  let f := ⌊q⌋
  let r := q - f
  if r < 1 / 2 then f
  else if 1 / 2 < r then f + 1
  else if f % 2 = 0 then f else f + 1

/-- The spoken message of line 233: `Person ahead at {dist_cm:.0f} centimeters`. -/
def personMsg (d : ℚ) : String :=
  "Person ahead at " ++ toString (fmt0 d) ++ " centimeters"

/-- The spoken message of line 238:
`Obstacle detected ahead at distance {dist_cm:.0f} centimeters`. -/
def obstacleMsg (d : ℚ) : String :=
  "Obstacle detected ahead at distance " ++ toString (fmt0 d) ++ " centimeters"

/-- The spoken message of line 244. -/
def stopMsg : String := "Stop, obstacle very close"

/-- Line 231: `cls_id==0 and dist_cm < 250 and dist_cm >= 130`, with Python
short-circuit evaluation (so `dist_cm` is only compared when `cls_id == 0`). -/
def personCond (cls_id : ℤ) (dist_cm : Option ℚ) : Except String Bool :=
  if cls_id = 0 then do
    let b ← pyLt dist_cm 250
    if b then pyGe dist_cm 130 else pure false
  else pure false

/-- Line 235: `cls_id != 0 and dist_cm < 150 and dist_cm >= 45`. -/
def obstacleCond (cls_id : ℤ) (dist_cm : Option ℚ) : Except String Bool :=
  if cls_id ≠ 0 then do
    let b ← pyLt dist_cm 150
    if b then pyGe dist_cm 45 else pure false
  else pure false

/-- Line 241: `dist_cm < 45`. -/
def stopCond (dist_cm : Option ℚ) : Except String Bool := pyLt dist_cm 45

/-- The alert classifier: the `if/elif/elif` chain of lines 231-246, in source
order (person band, then obstacle band, then critical stop).  An `Except.error`
models an uncaught Python exception escaping the comparison. -/
def classify (cls_id : ℤ) (dist_cm : Option ℚ) : Except String Alert := do
  if (← personCond cls_id dist_cm) then
    pure ⟨AlertTier.personWarning, Option.some (personMsg (dist_cm.getD 0))⟩
  else if (← obstacleCond cls_id dist_cm) then
    pure ⟨AlertTier.obstacleWarning, Option.some (obstacleMsg (dist_cm.getD 0))⟩
  else if (← stopCond dist_cm) then
    pure ⟨AlertTier.criticalStop, Option.some stopMsg⟩
  else
    pure ⟨AlertTier.none, Option.none⟩

/-- Modelled from the spec (§4.3 tier table): the classifier with the
CriticalStop band evaluated first, used to compare orderings. -/
def specTier (cls_id : ℤ) (d : ℚ) : AlertTier :=
  if d < 45 then AlertTier.criticalStop
  else if cls_id = 0 ∧ 130 ≤ d ∧ d < 250 then AlertTier.personWarning
  else if cls_id ≠ 0 ∧ 45 ≤ d ∧ d < 150 then AlertTier.obstacleWarning
  else AlertTier.none

/-- Ascending sort, modelling the sort underlying `np.percentile` / `np.median`. -/
def sortAsc (l : List ℚ) : List ℚ := l.insertionSort (· ≤ ·)

/-- Model of `np.percentile(l, q)` with the default linear interpolation: on the sorted
data `s` of length `n`, the value at fractional index `q/100 * (n-1)`. -/
def percentile (q : ℚ) (l : List ℚ) : ℚ :=
  let s := sortAsc l
  let n := s.length
  let idx : ℚ := q / 100 * ((n : ℚ) - 1)
  let lo : ℕ := (⌊idx⌋).toNat
  let hi : ℕ := (⌈idx⌉).toNat
  let a := s.getD lo 0
  let b := s.getD hi 0
  a + (idx - (lo : ℚ)) * (b - a)

/-- Model of `np.median`: middle element of the sorted data, or the mean of the two
middle elements when the length is even. -/
def median (l : List ℚ) : ℚ :=
  let s := sortAsc l
  let n := s.length
  if n % 2 = 1 then s.getD (n / 2) 0
  else (s.getD (n / 2 - 1) 0 + s.getD (n / 2) 0) / 2

/-- Line 206: the validity gate `(roi_d > 0) & (roi_c >= CONF_THR)` on one
(depth, confidence) sample. -/
def validPixel (p : ℚ × ℚ) : Bool := decide (0 < p.1 ∧ CONF_THR ≤ p.2)

/-- Line 207: `valid = roi_d[mask]`, the depths of the valid pixels of an ROI
given as a list of (depth, confidence) samples. -/
def validDepths (pixels : List (ℚ × ℚ)) : List ℚ :=
  (pixels.filter validPixel).map Prod.fst

/-- Lines 213-217: `d_min = percentile(valid, 5)` and
`obj_depths = valid[valid <= d_min + MARGIN_MM]`. -/
def objCluster (valid : List ℚ) : List ℚ :=
  let d_min := percentile 5 valid
  valid.filter (fun v => decide (v ≤ d_min + MARGIN_MM))

/-- Lines 213-225 on a non-empty valid set: the nearest-cluster median (with
the `d_min` fallback for an empty cluster), converted to cm by `* 0.1`. -/
def distFromValid (valid : List ℚ) : ℚ :=
  let d_min := percentile 5 valid
  let obj_depths := objCluster valid
  let dist_mm := if obj_depths = [] then d_min else median obj_depths
  dist_mm * (1 / 10)

/-- Lines 206-225: the distance estimator on an ROI, `None` when the valid set
is empty (line 209-210), otherwise the cluster-median distance in cm. -/
def distEstimate (pixels : List (ℚ × ℚ)) : Option ℚ :=
  let valid := validDepths pixels
  if valid = [] then Option.none
  else Option.some (distFromValid valid)

/-- Modelled from the spec (§4.2 steps 5-8), for comparison with the code path:
percentile, margin cluster, median-or-`dMin` fallback, millimeters times 0.1. -/
def specDistanceCm (valid : List ℚ) (marginMm : ℚ) : ℚ :=
  let dMin := percentile 5 valid
  let cluster := valid.filter (fun v => decide (v ≤ dMin + marginMm))
  (if cluster = [] then dMin else median cluster) * (1 / 10)

/-- One YOLO detection as consumed by the loop of line 189: integer box
coordinates (line 190) and the class id (line 228). -/
structure YoloBox where
  x1 : ℤ
  y1 : ℤ
  x2 : ℤ
  y2 : ℤ
  cls_id : ℤ
deriving DecidableEq

/-- Lines 193-196: `max(0, min(bound, v))`. -/
def clampTo (bound : ℤ) (v : ℤ) : ℤ := max 0 (min bound v)

/-- Lines 202-203: the ROI `buf[y1:y2, x1:x2]` flattened to a list of
(depth, confidence) samples read from the RAW frame buffers. -/
def roiPixels (depth_buf confidence_buf : ℕ → ℕ → ℚ) (x1 y1 x2 y2 : ℕ) :
    List (ℚ × ℚ) :=
  (List.range (y2 - y1)).flatMap (fun dy =>
    (List.range (x2 - x1)).map (fun dx =>
      (depth_buf (y1 + dy) (x1 + dx), confidence_buf (y1 + dy) (x1 + dx))))

/-- Lines 189-246, one loop iteration: clamp the box (193-196), skip it when
degenerate (198-199, yielding no alert), otherwise estimate the distance from
the raw ROI and classify.  `Except.ok Option.none` is a skipped detection;
`Except.error` is an uncaught exception escaping the iteration. -/
def processBox (depth_buf confidence_buf : ℕ → ℕ → ℚ) (W H : ℕ)
    (box : YoloBox) : Except String (Option Alert) :=
  let x1 := clampTo ((W : ℤ) - 1) box.x1
  let x2 := clampTo ((W : ℤ) - 1) box.x2
  let y1 := clampTo ((H : ℤ) - 1) box.y1
  let y2 := clampTo ((H : ℤ) - 1) box.y2
  if x2 ≤ x1 ∨ y2 ≤ y1 then Except.ok Option.none
  else
    let dist_cm := distEstimate
      (roiPixels depth_buf confidence_buf x1.toNat y1.toNat x2.toNat y2.toNat)
    (classify box.cls_id dist_cm).map Option.some

/-- The whole detection loop of lines 189-246 over a frame: processes the boxes
in order, collecting the emitted alerts; an exception in one iteration aborts
the rest of the loop (there is no handler inside the `for`). -/
def processBoxes (depth_buf confidence_buf : ℕ → ℕ → ℚ) (W H : ℕ) :
    List YoloBox → Except String (List Alert)
  | [] => Except.ok []
  | box :: rest => do
    let r ← processBox depth_buf confidence_buf W H box
    let rs ← processBoxes depth_buf confidence_buf W H rest
    match r with
    | Option.none => pure rs
    | Option.some a => pure (a :: rs)

/-- The per-frame buffers: the raw `depth_buf`/`confidence_buf` of lines
139-140 and the working copies `depth`/`conf` of lines 154-155, plus the
normalized 8-bit `depth_norm` of line 164. -/
structure PipelineState where
  depth_buf : ℕ → ℕ → ℚ
  confidence_buf : ℕ → ℕ → ℚ
  depth : ℕ → ℕ → ℚ
  conf : ℕ → ℕ → ℚ
  depth_norm : ℕ → ℕ → ℤ

/-- Lines 154-155: `depth = depth_buf.copy()`, `conf = confidence_buf.copy()`. -/
def copyStep (s : PipelineState) : PipelineState :=
  { s with depth := s.depth_buf, conf := s.confidence_buf }

/-- Line 158: `depth[conf < CONF_THR] = 0`, writing only the copy. -/
def maskLowConfStep (s : PipelineState) : PipelineState :=
  { s with depth := fun y x => if s.conf y x < CONF_THR then 0 else s.depth y x }

/-- Line 161: `depth = np.clip(depth, 0, MAX_MM)`. -/
def clipStep (maxMm : ℚ) (s : PipelineState) : PipelineState :=
  { s with depth := fun y x => min maxMm (max 0 (s.depth y x)) }

/-- Line 164: `depth_norm = (depth * (255.0 / MAX_MM)).astype(np.uint8)`;
the cast truncates (all values are non-negative after the clip). -/
def normalizeStep (maxMm : ℚ) (s : PipelineState) : PipelineState :=
  { s with depth_norm := fun y x => ⌊s.depth y x * (255 / maxMm)⌋ }

/-- Line 167: `depth_norm = cv2.medianBlur(depth_norm, 5)`; the external
filter is an arbitrary buffer transformation `blur`. -/
def blurStep (blur : (ℕ → ℕ → ℤ) → (ℕ → ℕ → ℤ)) (s : PipelineState) :
    PipelineState :=
  { s with depth_norm := blur s.depth_norm }

/-- Lines 153-167: the preprocessing chain (copy, confidence-gate, clip,
normalize, median-filter). -/
def preprocess (maxMm : ℚ) (blur : (ℕ → ℕ → ℤ) → (ℕ → ℕ → ℤ))
    (s : PipelineState) : PipelineState :=
  blurStep blur (normalizeStep maxMm (clipStep maxMm (maskLowConfStep (copyStep s))))

/-- Line 173: `mask = (conf >= CONF_THR)`, the binary validity mask computed
from the working confidence copy. -/
def validMask (s : PipelineState) (y x : ℕ) : Bool :=
  decide (CONF_THR ≤ s.conf y x)

/-- Lines 202-203 in context: the detection loop reads the RAW
`depth_buf`/`confidence_buf` fields of the state, not the working copies. -/
def frameDetections (s : PipelineState) (W H : ℕ) (boxes : List YoloBox) :
    Except String (List Alert) :=
  processBoxes s.depth_buf s.confidence_buf W H boxes

/-- Outcome of the startup section of `main`: the process exit status and the
failure message printed, with the numeric device code it surfaces. -/
structure StartupOutcome where
  exitCode : ℤ
  failMessage : Option (String × ℤ)
deriving DecidableEq

/-- Lines 96-109 and 282-283: `cam.open` failing (non-zero `ret`) prints
`Failed to open camera. Error code: ret` and plainly returns from `main`;
`cam.start` failing prints `Failed to start camera. Error code: ret` and
returns.  In every path the script exits via a plain return, so the process
exit status is 0. -/
def mainStartup (openRet startRet : ℤ) : StartupOutcome :=
  if openRet ≠ 0 then ⟨0, Option.some ("Failed to open camera. Error code:", openRet)⟩
  else if startRet ≠ 0 then ⟨0, Option.some ("Failed to start camera. Error code:", startRet)⟩
  else ⟨0, Option.none⟩

deriving instance DecidableEq for Except

/-- Concrete state whose source frame has uniform depth 1000 mm but uniformly
low confidence 10 (below the threshold 30). -/
def lowConfState : PipelineState :=
  ⟨fun _ _ => 1000, fun _ _ => 10, fun _ _ => 0, fun _ _ => 0, fun _ _ => 0⟩

/-- Concrete state whose source frame has uniform raw depth 5000 mm (beyond
`MAX_DISTANCE`) at full confidence. -/
def rawHighState : PipelineState :=
  ⟨fun _ _ => 5000, fun _ _ => 100, fun _ _ => 0, fun _ _ => 0, fun _ _ => 0⟩

/-- All-zero frame buffer, for concrete instantiations. -/
def zeroBuf : ℕ → ℕ → ℚ := fun _ _ => 0

/-- Every non-empty list of rationals has a least element. -/
theorem exists_list_min (l : List ℚ) (h : l ≠ []) : ∃ m ∈ l, ∀ x ∈ l, m ≤ x := by
  induction l with
  | nil => exact absurd rfl h
  | cons a t ih =>
    rcases eq_or_ne t [] with ht | ht
    · subst ht
      refine ⟨a, List.mem_singleton_self a, ?_⟩
      intro x hx
      rw [List.mem_singleton] at hx
      exact hx ▸ le_refl a
    · obtain ⟨m, hm, hmin⟩ := ih ht
      by_cases ham : a ≤ m
      · refine ⟨a, List.mem_cons_self a t, ?_⟩
        intro x hx
        rcases List.mem_cons.1 hx with rfl | hx
        · exact le_rfl
        · exact le_trans ham (hmin x hx)
      · refine ⟨m, List.mem_cons_of_mem a hm, ?_⟩
        intro x hx
        rcases List.mem_cons.1 hx with rfl | hx
        · exact le_of_not_le ham
        · exact hmin x hx

/-- Reading `getD` at an in-range index is a member of the list. -/
theorem getD_mem {l : List ℚ} {i : ℕ} (h : i < l.length) : l.getD i 0 ∈ l := by
  rw [List.getD_eq_getElem l 0 h]
  exact List.getElem_mem h

/-- Linear interpolation between two values bounded below stays bounded below. -/
theorem le_interp {m a b frac : ℚ} (ha : m ≤ a) (hb : m ≤ b) (h0 : 0 ≤ frac)
    (h1 : frac ≤ 1) : m ≤ a + frac * (b - a) := by
  nlinarith [mul_nonneg (sub_nonneg.2 h1) (sub_nonneg.2 ha),
    mul_nonneg h0 (sub_nonneg.2 hb)]

/-- A lower bound of a non-empty list bounds its interpolated 5th percentile. -/
theorem min_le_percentile (l : List ℚ) (hl : l ≠ []) {m : ℚ}
    (hm : ∀ x ∈ l, m ≤ x) : m ≤ percentile 5 l := by
  simp only [percentile]
  set s := sortAsc l with hs
  have hmem : ∀ x ∈ s, m ≤ x := by
    intro x hx
    refine hm x ?_
    have : x ∈ l.insertionSort (· ≤ ·) := hx
    exact (List.mem_insertionSort (· ≤ ·)).1 this
  have hlen : s.length = l.length := List.length_insertionSort (· ≤ ·) l
  have hn : 1 ≤ s.length := by
    rw [hlen]
    exact List.length_pos.2 hl
  have hn1 : (1 : ℚ) ≤ (s.length : ℚ) := by exact_mod_cast hn
  set idx : ℚ := 5 / 100 * ((s.length : ℚ) - 1) with hidx
  have hidx0 : (0 : ℚ) ≤ idx := by
    rw [hidx]
    apply mul_nonneg (by norm_num)
    linarith
  have hidx1 : idx ≤ (s.length : ℚ) - 1 := by
    rw [hidx]
    nlinarith
  have hfl0 : (0 : ℤ) ≤ ⌊idx⌋ := Int.floor_nonneg.2 hidx0
  have hcl0 : (0 : ℤ) ≤ ⌈idx⌉ := Int.ceil_nonneg hidx0
  have hfl_lt : (⌊idx⌋).toNat < s.length := by
    have h2 : (⌊idx⌋ : ℚ) < (s.length : ℚ) := by
      have := Int.floor_le idx
      linarith
    have h3 : ⌊idx⌋ < (s.length : ℤ) := by exact_mod_cast h2
    omega
  have hcl_lt : (⌈idx⌉).toNat < s.length := by
    have h1 : ⌈idx⌉ ≤ (s.length : ℤ) - 1 := by
      apply Int.ceil_le.2
      push_cast
      linarith
    omega
  have hma : m ≤ s.getD (⌊idx⌋).toNat 0 := hmem _ (getD_mem hfl_lt)
  have hmb : m ≤ s.getD (⌈idx⌉).toNat 0 := hmem _ (getD_mem hcl_lt)
  have hfrac0 : 0 ≤ idx - ((⌊idx⌋).toNat : ℚ) := by
    have : ((⌊idx⌋).toNat : ℤ) = ⌊idx⌋ := Int.toNat_of_nonneg hfl0
    have h2 : ((⌊idx⌋).toNat : ℚ) = (⌊idx⌋ : ℚ) := by exact_mod_cast this
    rw [h2]
    have := Int.floor_le idx
    linarith
  have hfrac1 : idx - ((⌊idx⌋).toNat : ℚ) ≤ 1 := by
    have : ((⌊idx⌋).toNat : ℤ) = ⌊idx⌋ := Int.toNat_of_nonneg hfl0
    have h2 : ((⌊idx⌋).toNat : ℚ) = (⌊idx⌋ : ℚ) := by exact_mod_cast this
    rw [h2]
    have := Int.lt_floor_add_one idx
    linarith
  exact le_interp hma hmb hfrac0 hfrac1

/-- Reduction of an `Except` bind on a success value. -/
theorem exceptBind_ok {ε α β : Type} (a : α) (f : α → Except ε β) :
    (Except.ok a >>= f) = f a := rfl

/-- Reduction of an `Except` bind on an error value. -/
theorem exceptBind_error {ε α β : Type} (e : ε) (f : α → Except ε β) :
    ((Except.error e : Except ε α) >>= f) = Except.error e := rfl

/-- Reduction of `pure` on `Except` to `Except.ok`. -/
theorem exceptPure {ε α : Type} (a : α) : (pure a : Except ε α) = Except.ok a := rfl

/-- Closed form of `classify` at a present (`some`) distance: the source
`if/elif/elif` chain as a nest of conditionals on the three bands. -/
theorem classify_some_eq (cls_id : ℤ) (d : ℚ) :
    classify cls_id (Option.some d) =
      if cls_id = 0 ∧ 130 ≤ d ∧ d < 250 then
        Except.ok ⟨AlertTier.personWarning, Option.some (personMsg d)⟩
      else if cls_id ≠ 0 ∧ 45 ≤ d ∧ d < 150 then
        Except.ok ⟨AlertTier.obstacleWarning, Option.some (obstacleMsg d)⟩
      else if d < 45 then
        Except.ok ⟨AlertTier.criticalStop, Option.some stopMsg⟩
      else
        Except.ok ⟨AlertTier.none, Option.none⟩ := by
  by_cases h0 : cls_id = 0 <;>
    by_cases h1 : d < 250 <;> by_cases h2 : 130 ≤ d <;>
    by_cases h3 : d < 150 <;> by_cases h4 : 45 ≤ d <;> by_cases h5 : d < 45 <;>
    simp [classify, personCond, obstacleCond, stopCond, pyLt, pyGe,
      exceptBind_ok, exceptBind_error, exceptPure, h0, h1, h2, h3, h4, h5]

/-- Claim C1 (code-bug evidence): for every class id, an absent distance
estimate does NOT produce the `None` tier silently — the classifier raises the
Python `TypeError` of comparing `None` with an int (an uncaught exception),
contradicting the spec contract "no estimate ⇒ `None` tier, no alert, no
exception".  The second conjunct shows the failing input arises: an ROI whose
only sample has confidence 10 (below threshold) estimates to `None`. -/
theorem classify_none_raises :
    (∀ cls_id : ℤ, classify cls_id Option.none = Except.error noneCmpError)
    ∧ distEstimate [(1000, 10)] = Option.none := by
  constructor
  · intro cls_id
    by_cases h : cls_id = 0 <;>
      simp [classify, personCond, obstacleCond, stopCond, pyLt,
        exceptBind_ok, exceptBind_error, exceptPure, h]
  · decide

/-- Claim C2: on every non-empty valid set, the estimator returns exactly the
spec formula (5th percentile, margin cluster, median with `dMin` fallback,
`× 0.1`); and the end-to-end person scenario: ROI depths
`[1400, 1420, 1430, 1450, 1460]` mm at full confidence give estimate 143 cm,
and a class-0 box over that ROI yields the one alert
`PersonWarning, "Person ahead at 143 centimeters"`. -/
theorem distEstimate_formula_and_person_scenario :
    (∀ pixels : List (ℚ × ℚ), validDepths pixels ≠ [] →
        distEstimate pixels = Option.some (specDistanceCm (validDepths pixels) MARGIN_MM))
    ∧ distEstimate [(1400, 100), (1420, 100), (1430, 100), (1450, 100), (1460, 100)]
        = Option.some 143
    ∧ processBoxes (fun _ x => [1400, 1420, 1430, 1450, 1460].getD x 0) (fun _ _ => 100)
        240 180 [⟨0, 0, 5, 1, 0⟩]
        = Except.ok [⟨AlertTier.personWarning, Option.some "Person ahead at 143 centimeters"⟩] := by
  refine ⟨?_, by decide, by decide⟩
  intro pixels h
  simp only [distEstimate]
  rw [if_neg h]
  rfl

/-- Witness for C2 at the one-sample ROI `[(1400, 100)]`. -/
theorem distEstimate_formula_witness :
    validDepths [((1400 : ℚ), (100 : ℚ))] ≠ []
    ∧ distEstimate [((1400 : ℚ), (100 : ℚ))]
        = Option.some (specDistanceCm (validDepths [((1400 : ℚ), (100 : ℚ))]) MARGIN_MM) :=
  ⟨by decide, distEstimate_formula_and_person_scenario.1 _ (by decide)⟩

/-- Claim C3: the code classifier agrees with the spec critical-first
tier table at every present distance (so the orderings are observably
equivalent); any class id below 45 cm gets `CriticalStop` with the message
"Stop, obstacle very close"; in particular a class-0 (person) detection at
40 cm gets `CriticalStop`, not `PersonWarning`. -/
theorem classify_critical_band :
    (∀ (cls_id : ℤ) (d : ℚ),
        (classify cls_id (Option.some d)).map Alert.tier = Except.ok (specTier cls_id d))
    ∧ (∀ (cls_id : ℤ) (d : ℚ), d < 45 →
        classify cls_id (Option.some d)
          = Except.ok ⟨AlertTier.criticalStop, Option.some stopMsg⟩)
    ∧ classify 0 (Option.some 40)
        = Except.ok ⟨AlertTier.criticalStop, Option.some stopMsg⟩ := by
  refine ⟨?_, ?_, by decide⟩
  · intro cls_id d
    rw [classify_some_eq]
    unfold specTier
    split_ifs <;> simp_all [Except.map] <;> linarith
  · intro cls_id d h
    rw [classify_some_eq]
    rw [if_neg (by rintro ⟨-, h130, -⟩; linarith)]
    rw [if_neg (by rintro ⟨-, h45, -⟩; linarith)]
    rw [if_pos h]

/-- Witness for C3 at class 7, distance 40 cm. -/
theorem classify_critical_band_witness :
    (40 : ℚ) < 45
    ∧ classify 7 (Option.some 40)
        = Except.ok ⟨AlertTier.criticalStop, Option.some stopMsg⟩ :=
  ⟨by norm_num, classify_critical_band.2.1 7 40 (by norm_num)⟩

/-- Claim C4: a sample whose confidence is below the threshold is zeroed by
the preprocessing gate (on the working copy), excluded from the validity
mask, fails the estimator validity predicate for every depth, and is
dropped from the estimator valid set of any ROI containing it. -/
theorem lowConf_sample_excluded :
    ∀ (s : PipelineState) (y x : ℕ), s.confidence_buf y x < CONF_THR →
      (maskLowConfStep (copyStep s)).depth y x = 0
      ∧ validMask (copyStep s) y x = false
      ∧ (∀ d : ℚ, validPixel (d, s.confidence_buf y x) = false)
      ∧ (∀ (d : ℚ) (pixels : List (ℚ × ℚ)),
          validDepths ((d, s.confidence_buf y x) :: pixels) = validDepths pixels) := by
  intro s y x h
  refine ⟨?_, ?_, ?_, ?_⟩
  · simp [maskLowConfStep, copyStep, h]
  · have hn : ¬ CONF_THR ≤ s.confidence_buf y x := not_le.2 h
    simp [validMask, copyStep, hn]
  · intro d
    have hn : ¬ CONF_THR ≤ s.confidence_buf y x := not_le.2 h
    simp [validPixel, hn]
  · intro d pixels
    simp [validDepths, List.filter, validPixel, not_le.2 h]

/-- Witness for C4 on the all-low-confidence state. -/
theorem lowConf_sample_excluded_witness :
    lowConfState.confidence_buf 0 0 < CONF_THR
    ∧ (maskLowConfStep (copyStep lowConfState)).depth 0 0 = 0
    ∧ validMask (copyStep lowConfState) 0 0 = false
    ∧ validPixel ((1000 : ℚ), lowConfState.confidence_buf 0 0) = false := by
  have h : lowConfState.confidence_buf 0 0 < CONF_THR := by decide
  have hall := lowConf_sample_excluded lowConfState 0 0 h
  exact ⟨h, hall.1, hall.2.1, hall.2.2.1 1000⟩

/-- Claim C5: the distance estimator returns `None` exactly when no sample of
the ROI is both positive-depth and at-threshold confidence. -/
theorem distEstimate_none_iff :
    ∀ pixels : List (ℚ × ℚ),
      (distEstimate pixels = Option.none
        ↔ ∀ p ∈ pixels, ¬(0 < p.1 ∧ CONF_THR ≤ p.2)) := by
  intro pixels
  have hch : validDepths pixels = [] ↔ ∀ p ∈ pixels, ¬(0 < p.1 ∧ CONF_THR ≤ p.2) := by
    simp only [validDepths, List.map_eq_nil_iff, List.filter_eq_nil_iff, validPixel,
      decide_eq_true_eq]
  by_cases h : validDepths pixels = []
  · simp only [distEstimate]
    rw [if_pos h]
    exact iff_of_true rfl (hch.1 h)
  · simp only [distEstimate]
    rw [if_neg h]
    exact iff_of_false (by simp) (fun hall => h (hch.2 hall))

/-- Witness for C5: the all-low-confidence single-sample ROI. -/
theorem distEstimate_none_iff_witness :
    distEstimate [((1000 : ℚ), (10 : ℚ))] = Option.none :=
  (distEstimate_none_iff [((1000 : ℚ), (10 : ℚ))]).2 (by decide)

/-- Claim C6: band boundaries for a non-person class id — 45.0 cm is inside
the obstacle band (inclusive lower bound) and 150.0 cm falls through to the
`None` tier (exclusive upper bound). -/
theorem classify_band_boundaries :
    ∀ cls_id : ℤ, cls_id ≠ 0 →
      classify cls_id (Option.some 45)
          = Except.ok ⟨AlertTier.obstacleWarning, Option.some (obstacleMsg 45)⟩
      ∧ classify cls_id (Option.some 150) = Except.ok ⟨AlertTier.none, Option.none⟩ := by
  intro cls_id h
  constructor
  · rw [classify_some_eq]
    rw [if_neg (by rintro ⟨h0, -, -⟩; exact h h0)]
    rw [if_pos ⟨h, by norm_num, by norm_num⟩]
  · rw [classify_some_eq]
    rw [if_neg (by rintro ⟨h0, -, -⟩; exact h h0)]
    rw [if_neg (by rintro ⟨-, -, h150⟩; norm_num at h150)]
    rw [if_neg (by norm_num)]

/-- Witness for C6 at class id 1. -/
theorem classify_band_boundaries_witness :
    (1 : ℤ) ≠ 0
    ∧ classify 1 (Option.some 45)
        = Except.ok ⟨AlertTier.obstacleWarning, Option.some (obstacleMsg 45)⟩
    ∧ classify 1 (Option.some 150) = Except.ok ⟨AlertTier.none, Option.none⟩ :=
  ⟨by decide, classify_band_boundaries 1 (by decide)⟩

/-- Claim C7: a detection whose clamped box is degenerate (`x2 ≤ x1` or
`y2 ≤ y1` after clamping to `[0, W-1] × [0, H-1]`) is skipped entirely — it
yields no alert, and the rest of the frame detections produce exactly what
they would without it; in particular the box `(50, 50, 50, 80)` is skipped
for every frame size. -/
theorem degenerate_box_skipped :
    (∀ (depth_buf confidence_buf : ℕ → ℕ → ℚ) (W H : ℕ) (box : YoloBox),
        clampTo ((W : ℤ) - 1) box.x2 ≤ clampTo ((W : ℤ) - 1) box.x1
          ∨ clampTo ((H : ℤ) - 1) box.y2 ≤ clampTo ((H : ℤ) - 1) box.y1 →
        processBox depth_buf confidence_buf W H box = Except.ok Option.none
        ∧ ∀ rest, processBoxes depth_buf confidence_buf W H (box :: rest)
            = processBoxes depth_buf confidence_buf W H rest)
    ∧ (∀ (depth_buf confidence_buf : ℕ → ℕ → ℚ) (W H : ℕ),
        processBox depth_buf confidence_buf W H ⟨50, 50, 50, 80, 0⟩
          = Except.ok Option.none) := by
  have key : ∀ (db cb : ℕ → ℕ → ℚ) (W H : ℕ) (box : YoloBox),
      clampTo ((W : ℤ) - 1) box.x2 ≤ clampTo ((W : ℤ) - 1) box.x1
        ∨ clampTo ((H : ℤ) - 1) box.y2 ≤ clampTo ((H : ℤ) - 1) box.y1 →
      processBox db cb W H box = Except.ok Option.none := by
    intro db cb W H box h
    simp only [processBox]
    rw [if_pos h]
  refine ⟨fun db cb W H box h => ⟨key db cb W H box h, fun rest => ?_⟩,
    fun db cb W H => key db cb W H ⟨50, 50, 50, 80, 0⟩ (Or.inl le_rfl)⟩
  simp only [processBoxes, key db cb W H box h, exceptBind_ok]
  cases processBoxes db cb W H rest <;> rfl

/-- Witness for C7 on the all-zero frame, with a second surviving box. -/
theorem degenerate_box_skipped_witness :
    (clampTo ((240 : ℤ) - 1) 50 ≤ clampTo ((240 : ℤ) - 1) 50
      ∨ clampTo ((180 : ℤ) - 1) 80 ≤ clampTo ((180 : ℤ) - 1) 50)
    ∧ processBox zeroBuf zeroBuf 240 180 ⟨50, 50, 50, 80, 0⟩ = Except.ok Option.none
    ∧ processBoxes zeroBuf zeroBuf 240 180 (⟨50, 50, 50, 80, 0⟩ :: [⟨0, 0, 2, 2, 1⟩])
        = processBoxes zeroBuf zeroBuf 240 180 [⟨0, 0, 2, 2, 1⟩] := by
  have h := degenerate_box_skipped.1 zeroBuf zeroBuf 240 180 ⟨50, 50, 50, 80, 0⟩
    (Or.inl le_rfl)
  exact ⟨Or.inl le_rfl, h.1, h.2 [⟨0, 0, 2, 2, 1⟩]⟩

/-- Claim C8: the preprocessing chain writes only the working copies — the
raw `depth_buf`/`confidence_buf` of the frame are untouched by gating,
clipping, normalization and median filtering, for every median-filter
behavior `blur`, and the detection-loop results depend only on the raw
buffers.  Concretely, a raw depth of 5000 mm is clipped to 4000 in the copy,
while the estimator still sees the raw 5000 mm and reports 500 cm. -/
theorem preprocess_touches_only_copies :
    (∀ (s : PipelineState) (maxMm : ℚ) (blur : (ℕ → ℕ → ℤ) → (ℕ → ℕ → ℤ)),
        (preprocess maxMm blur s).depth_buf = s.depth_buf
        ∧ (preprocess maxMm blur s).confidence_buf = s.confidence_buf
        ∧ ∀ (W H : ℕ) (boxes : List YoloBox),
            frameDetections (preprocess maxMm blur s) W H boxes
              = frameDetections s W H boxes)
    ∧ (clipStep MAX_DISTANCE (maskLowConfStep (copyStep rawHighState))).depth 0 0 = 4000
    ∧ distEstimate (roiPixels rawHighState.depth_buf rawHighState.confidence_buf 0 0 2 2)
        = Option.some 500 := by
  refine ⟨fun s maxMm blur => ⟨rfl, rfl, fun W H boxes => rfl⟩, ?_, by decide⟩
  show min MAX_DISTANCE (max 0 (if (100 : ℚ) < CONF_THR then 0 else 5000)) = 4000
  norm_num [MAX_DISTANCE, CONF_THR]

/-- Claim C9 counterexample: when `cam.open` fails with device code 1, `main`
prints the message and plainly returns, so the process exit code is 0 — not
non-zero as the claim states. -/
theorem open_failure_exit_code_zero : (mainStartup 1 0).exitCode = 0 := by decide

/-- Claim C9 amended: the process exit code is 0 in every path — normal
shutdown and camera open/start failures alike; the failing stage numeric
device code is surfaced only through the printed failure message. -/
theorem startup_exit_code_and_messages :
    ∀ openRet startRet : ℤ,
      (mainStartup openRet startRet).exitCode = 0
      ∧ (openRet ≠ 0 →
          (mainStartup openRet startRet).failMessage
            = Option.some ("Failed to open camera. Error code:", openRet))
      ∧ (openRet = 0 → startRet ≠ 0 →
          (mainStartup openRet startRet).failMessage
            = Option.some ("Failed to start camera. Error code:", startRet))
      ∧ (openRet = 0 → startRet = 0 →
          (mainStartup openRet startRet).failMessage = Option.none) := by
  intro o r
  by_cases ho : o = 0 <;> by_cases hr : r = 0 <;> simp [mainStartup, ho, hr]

/-- Witness for C9 amended claim at a failing open (code 1). -/
theorem startup_exit_code_witness :
    (1 : ℤ) ≠ 0
    ∧ (mainStartup 1 0).exitCode = 0
    ∧ (mainStartup 1 0).failMessage
        = Option.some ("Failed to open camera. Error code:", 1) :=
  ⟨by decide, (startup_exit_code_and_messages 1 0).1,
    (startup_exit_code_and_messages 1 0).2.1 (by decide)⟩

/-- Claim C10: for every non-negative margin the object cluster around the
5th percentile of a non-empty valid set is non-empty (the minimum valid depth
is a member); hence the `d_min` fallback branch of lines 219-220 is
unreachable and the estimate is always the cluster median times 0.1. -/
theorem cluster_nonempty_no_fallback :
    (∀ (marginMm : ℚ) (valid : List ℚ), 0 ≤ marginMm → valid ≠ [] →
        valid.filter (fun v => decide (v ≤ percentile 5 valid + marginMm)) ≠ [])
    ∧ (∀ pixels : List (ℚ × ℚ), validDepths pixels ≠ [] →
        objCluster (validDepths pixels) ≠ []
        ∧ distEstimate pixels
            = Option.some (median (objCluster (validDepths pixels)) * (1 / 10))) := by
  have main : ∀ (marginMm : ℚ) (valid : List ℚ), 0 ≤ marginMm → valid ≠ [] →
      valid.filter (fun v => decide (v ≤ percentile 5 valid + marginMm)) ≠ [] := by
    intro marginMm valid hm hv
    obtain ⟨m, hmem, hmin⟩ := exists_list_min valid hv
    have hle : m ≤ percentile 5 valid := min_le_percentile valid hv hmin
    have hmemf : m ∈ valid.filter (fun v => decide (v ≤ percentile 5 valid + marginMm)) := by
      rw [List.mem_filter]
      exact ⟨hmem, decide_eq_true (by linarith)⟩
    exact List.ne_nil_of_mem hmemf
  refine ⟨main, fun pixels hp => ?_⟩
  have hcluster : objCluster (validDepths pixels) ≠ [] := by
    have h := main MARGIN_MM (validDepths pixels) (by norm_num [MARGIN_MM]) hp
    simpa [objCluster] using h
  refine ⟨hcluster, ?_⟩
  simp only [distEstimate]
  rw [if_neg hp]
  simp only [distFromValid]
  rw [if_neg hcluster]

/-- Witness for C10 on the one-sample valid ROI `[(100, 50)]`. -/
theorem cluster_nonempty_no_fallback_witness :
    (0 : ℚ) ≤ 250
    ∧ validDepths [((100 : ℚ), (50 : ℚ))] ≠ []
    ∧ objCluster (validDepths [((100 : ℚ), (50 : ℚ))]) ≠ []
    ∧ distEstimate [((100 : ℚ), (50 : ℚ))]
        = Option.some (median (objCluster (validDepths [((100 : ℚ), (50 : ℚ))])) * (1 / 10)) := by
  have h := cluster_nonempty_no_fallback.2 [((100 : ℚ), (50 : ℚ))] (by decide)
  exact ⟨by norm_num, by decide, h.1, h.2⟩

end ObstacleDepth
